import Mathlib

/-!
Verification of the SIG-HA holographic-pass accumulator engine.

This file shallowly embeds the Python sources under `src/holographic_pass/`
(`core.py`, `scopes.py`, `security.py`, `models.py`) as executable Lean
definitions, and proves/refutes the frozen specification claims about them.

Modelling conventions:
* Big integers are `Nat`; modular arithmetic is explicit (`% M`).
* Wall-clock times (Python floats of Unix seconds) are `Int`.
* SHA-256 is not bit-modelled: a `CryptoContext` carries two abstract model
  functions, `shaNat` (for `int(sha256(x).hexdigest(), 16)`) and `shaHex`
  (for `sha256(x).hexdigest()`).  Theorems quantify over them; concrete
  witnesses instantiate them with simple executable stand-ins.
* Python exceptions are `Except`; a `(bool, message)` return from
  `verify_path` is modelled with the `VMsg` inductive, whose constructors
  correspond one-to-one to the literal message strings in the source.
-/

/-- Model of `CryptoContext` (core.py).  `M` is the RSA modulus, `G = 4`
the generator.  The two hash fields are abstract models of SHA-256 as used
by the code: `shaNat` for hash-as-big-integer, `shaHex` for hex digests.
The Rust-generated modulus itself is opaque; claims never depend on its
value, so `M` is simply a field. -/
structure CryptoContext where
  M : Nat
  G : Nat
  shaNat : String → Nat
  shaHex : String → String

/-- Model of `CryptoContext.fast_pow` (core.py): delegates to the Rust
`safe_pow_mod`, i.e. plain modular exponentiation `base ^ exp mod M`. -/
def fast_pow (ctx : CryptoContext) (base exp : Nat) : Nat :=
  base ^ exp % ctx.M

/-! ## PrimeRegistry (core.py) -/

/-- Model of the `PrimeRegistry` mutable state: the memoisation `cache` and the
rate-limit `request_log` (a Python dict `agent_id -> timestamp`, modelled
as an association list with dict update semantics). -/
structure RegState where
  cache : List (String × Nat)
  request_log : List (String × Int)
deriving DecidableEq

def empty_registry : RegState := ⟨[], []⟩

def RATE_LIMIT_WINDOW : Int := 1

def MAX_REQUESTS_PER_WINDOW : Nat := 100

/-- Python dict assignment `log[agent_id] = now`: overwrite in place if the
key is present, else append (insertion order preserved). -/
def dict_insert (log : List (String × Int)) (agent_id : String) (now : Int) :
    List (String × Int) :=
  if log.any (fun kv => kv.1 = agent_id) then
    log.map (fun kv => if kv.1 = agent_id then (agent_id, now) else kv)
  else
    log ++ [(agent_id, now)]

/-- Model of `PrimeRegistry.register_agent` (core.py).  The hash-to-prime derivation
lives in the Rust core; it is passed in as the deterministic function `hp`
(per the spec, `hash_to_prime` is pure and memoisable).  Order of effects
follows the source: purge expired log entries, check the rate limit against
the purged log, record the request, then consult the cache and derive on a
miss.  A raised `RuntimeError` is `Except.error`. -/
def register_agent (hp : String → Nat) (now : Int) (reg : RegState)
    (agent_id : String) : Except String (Nat × RegState) :=
  let log := reg.request_log.filter (fun kv => now - kv.2 < RATE_LIMIT_WINDOW)
  if log.length > MAX_REQUESTS_PER_WINDOW then
    .error "Rate Limit Exceeded: Too many prime generation requests"
  else
    let log2 := dict_insert log agent_id now
    match reg.cache.lookup agent_id with
    | some p => .ok (p, ⟨reg.cache, log2⟩)
    | none => .ok (hp agent_id, ⟨reg.cache ++ [(agent_id, hp agent_id)], log2⟩)

/-- Model of `PrimeRegistry.get_prime` (core.py), an alias of `register_agent`. -/
def get_prime (hp : String → Nat) (now : Int) (reg : RegState)
    (agent_id : String) : Except String (Nat × RegState) :=
  register_agent hp now reg agent_id

/-- Sequentially submit a list of agent ids to `register_agent`, threading
the registry state; stops at the first raised error (so a `.ok` result
means no call failed). -/
def register_all (hp : String → Nat) (now : Int) :
    RegState → List String → Except String RegState
  | reg, [] => .ok reg
  | reg, agent_id :: rest =>
    match register_agent hp now reg agent_id with
    | .error e => .error e
    | .ok (_, reg2) => register_all hp now reg2 rest

/-! ## Scopes (scopes.py) -/

/-- Result dictionary of `SwarmScope.seal_and_export`. -/
structure SwarmResult where
  swarm_prime : Nat
  work_proof : Nat
  complexity : Nat
deriving DecidableEq

/-- Model of `SwarmScope.seal_and_export` (scopes.py): the work proof hashes
`"{name}:{local_t}:{local_depth}"` and complexity is the local depth. -/
def seal_and_export (ctx : CryptoContext) (swarm_name : String)
    (swarm_prime : Nat) (local_t local_depth : Nat) : SwarmResult :=
  let proof_payload := swarm_name ++ ":" ++ toString local_t ++ ":" ++ toString local_depth
  { swarm_prime := swarm_prime
    work_proof := ctx.shaNat proof_payload
    complexity := local_depth }

/-- Observable state of a `HolographicAccumulator` (core.py): Python-side
`current_T` and `depth`, plus the backend operation counter exposed via
`get_op_count`. -/
structure HoloAcc where
  current_T : Nat
  depth : Nat
  op_count : Nat
deriving DecidableEq

/-- Modelled from the spec: the Rust backend call `set_state(T, d)` used by
`update_global_with_swarm` is not under `src/`; spec section 4.4 states
that on swarm injection "The parent accumulator's op_count increments
by 2", so the sync of the backend to `(T, d)` is modelled as also adding 2
to the backend operation counter. -/
def backend_set_state (acc : HoloAcc) (t d : Nat) : HoloAcc :=
  { current_T := t, depth := d, op_count := acc.op_count + 2 }

/-- Model of `update_global_with_swarm` (scopes.py): inject a sealed swarm result
into the parent (global) accumulator. -/
def update_global_with_swarm (ctx : CryptoContext) (acc : HoloAcc)
    (res : SwarmResult) : HoloAcc :=
  let term_identity := fast_pow ctx acc.current_T res.swarm_prime
  let proof := res.work_proof
  let effective_depth := acc.depth + res.complexity
  let term_perturbation := fast_pow ctx ctx.G (proof + effective_depth)
  let new_global_t := term_identity * term_perturbation % ctx.M
  backend_set_state acc new_global_t (acc.depth + 1)

/-- Model of `ParallelScope.merge` (scopes.py).  `branch_factors` is the list of
primes appended by `add_branch_result` in call order.  On a non-empty list
the code reduces the factors with multiplication and performs one cascaded
update over the product. -/
def merge (ctx : CryptoContext) (base_t base_depth : Nat)
    (branch_factors : List Nat) : Nat × Nat :=
  match branch_factors with
  | [] => (base_t, base_depth)
  | f :: rest =>
    let p_total := rest.foldl (fun x y => x * y) f
    let term_path := fast_pow ctx base_t p_total
    let next_depth := base_depth + 1
    let depth_hash := ctx.shaNat (toString next_depth)
    let term_depth := fast_pow ctx ctx.G depth_hash
    let t_final := term_path * term_depth % ctx.M
    (t_final, next_depth)

/-- The `ParallelScope` driven at the agent-name level: `add_branch_result`
registers each name in order (the registry map is the deterministic
function `getP`), then `merge` runs on the collected factors. -/
def merge_names (ctx : CryptoContext) (getP : String → Nat)
    (base_t base_depth : Nat) (names : List String) : Nat × Nat :=
  merge ctx base_t base_depth (names.map getP)

/-- Number of `fast_pow` (modular exponentiation) calls `merge` performs,
read off the code structure: zero on the empty-branch short-circuit, two
otherwise (`term_path` and `term_depth`). -/
def merge_pow_calls : List Nat → Nat
  | [] => 0
  | _ :: _ => 2

/-! ## SnapshotAccumulator (core.py) -/

/-- Snapshot block (parsed from the backend's JSON `snapshot_data`);
fields per the spec's snapshot block format. -/
structure Block where
  segment_id : Nat
  final_t : String
  depth_at_snapshot : Nat
  snapshot_hash : String
  prev_hash : String
  timestamp : Int
deriving DecidableEq

/-- Observable state of a `SnapshotAccumulator` (core.py):
`(current_T, depth, op_count)` as in the base class plus the snapshot
chain fields. -/
structure SnapAcc where
  current_T : Nat
  depth : Nat
  op_count : Nat
  segment_id : Nat
  last_snapshot_hash : String
  snapshot_store : List Block
deriving DecidableEq

/-- Result of the Rust backend call `update_with_snapshot`, the tuple
`(new_t_str, is_folded, snapshot_data)` together with the backend state
read back afterwards (`get_depth`, `get_op_count`).  The backend itself is
native code; the claims below concern only the Python commit logic, which
consumes this value. -/
structure BackendResult where
  new_t : Nat
  new_depth : Nat
  new_op_count : Nat
  is_folded : Bool
  snapshot_data : Block
deriving DecidableEq

/-- Model of `SnapshotAccumulator.update_state_with_check` (core.py).  Faithful to
the statement order of the source: `current_T`, `depth` (and the backend
op counter) are committed first; only then, on a folded update, is the
snapshot chain check performed, raising `RuntimeError("Snapshot Chain
Integrity Violation!")` on mismatch.  A raised error is `.error (msg, s)`
where `s` is the observable accumulator state at the moment the exception
propagates. -/
def update_state_with_check (acc : SnapAcc) (res : BackendResult)
    (now : Int) : Except (String × SnapAcc) SnapAcc :=
  let acc1 : SnapAcc :=
    { acc with current_T := res.new_t, depth := res.new_depth,
               op_count := res.new_op_count }
  if res.is_folded then
    let block := { res.snapshot_data with timestamp := now }
    if block.prev_hash ≠ acc.last_snapshot_hash then
      .error ("Snapshot Chain Integrity Violation!", acc1)
    else
      .ok { acc1 with
              snapshot_store := acc.snapshot_store ++ [block]
              last_snapshot_hash := block.snapshot_hash
              segment_id := acc.segment_id + 1 }
  else
    .ok acc1

/-! ## Concrete instances for witnesses and counterexamples -/

/-- Small concrete context used by closed witnesses/counterexamples:
modulus 97, generator 4, both SHA-256 stand-ins trivial. -/
def ctx0 : CryptoContext :=
  { M := 97, G := 4, shaNat := fun _ => 0, shaHex := fun s => s }

/-- Concrete hash-to-prime stand-in: every id derives the prime 3. -/
def hp0 : String → Nat := fun _ => 3

/-- Concrete registry map for ParallelScope examples. -/
def getP0 : String → Nat := fun s => if s = "A" then 3 else 5

/-! ## Shared helper lemmas -/

theorem foldl_mul_eq_prod (l : List Nat) (a : Nat) :
    l.foldl (fun x y => x * y) a = a * l.prod := by
  induction l generalizing a with
  | nil => simp
  | cons b t ih => simp [List.foldl_cons, ih, List.prod_cons, Nat.mul_assoc]

theorem merge_eq_prod (ctx : CryptoContext) (t d f : Nat) (rest : List Nat) :
    merge ctx t d (f :: rest) =
      (fast_pow ctx t ((f :: rest).prod) *
         fast_pow ctx ctx.G (ctx.shaNat (toString (d + 1))) % ctx.M,
       d + 1) := by
  simp [merge, foldl_mul_eq_prod, List.prod_cons]

/-! ## C5: swarm injection formula -/

/-- C5: injecting a swarm result `{swarm_prime, work_proof, complexity}`
into a parent accumulator at `(T_g, d_g)` sets
`T_g' = (T_g ^ swarm_prime * G ^ (work_proof + d_g + complexity)) mod M`,
`d_g' = d_g + 1`, and increments the parent's op_count by 2 (the op-count
effect of the backend `set_state` is modelled from the spec). -/
theorem c5_swarm_injection (ctx : CryptoContext) (acc : HoloAcc)
    (res : SwarmResult) :
    (update_global_with_swarm ctx acc res).current_T =
        acc.current_T ^ res.swarm_prime *
          ctx.G ^ (res.work_proof + acc.depth + res.complexity) % ctx.M ∧
    (update_global_with_swarm ctx acc res).depth = acc.depth + 1 ∧
    (update_global_with_swarm ctx acc res).op_count = acc.op_count + 2 := by
  refine ⟨?_, rfl, rfl⟩
  show fast_pow ctx acc.current_T res.swarm_prime *
      fast_pow ctx ctx.G (res.work_proof + (acc.depth + res.complexity)) % ctx.M = _
  rw [fast_pow, fast_pow, ← Nat.mul_mod, Nat.add_assoc]

/-! ## C10: merge on an empty branch list is the identity -/

/-- C10: with no branches added, `ParallelScope.merge` returns the base
state `(base_t, base_depth)` unchanged — the depth is not incremented and
no modular exponentiation (`fast_pow` call) is performed. -/
theorem c10_empty_merge (ctx : CryptoContext) (base_t base_depth : Nat) :
    merge ctx base_t base_depth [] = (base_t, base_depth) ∧
    merge_pow_calls [] = 0 :=
  ⟨rfl, rfl⟩

/-! ## C1: ParallelScope.merge and branch order -/

/-- C1 (counterexample): for the base state `(2, 0)` and the ordered list
`["A", "B"]` of two distinct agent names (with primes 3 and 5), `merge`
yields exactly the same result on the list and on its reverse — the
claimed ordering sensitivity is false: the code folds the branch primes
into a commutative product. -/
theorem c1_counterexample :
    ("A" : String) ≠ "B" ∧
    merge_names ctx0 getP0 2 0 ["A", "B"] =
      merge_names ctx0 getP0 2 0 ["B", "A"] := by
  exact ⟨by decide, by decide⟩

/-- C1 (amended): `ParallelScope.merge` is invariant under any reordering
of the branch list: permuting the ordered list of agent names leaves both
`T_final` and the resulting depth unchanged (the branch primes enter only
through their product, which is commutative). -/
theorem c1_merge_perm_invariant (ctx : CryptoContext) (getP : String → Nat)
    (base_t base_depth : Nat) (l1 l2 : List String)
    (h : List.Perm l1 l2) :
    merge_names ctx getP base_t base_depth l1 =
      merge_names ctx getP base_t base_depth l2 := by
  have hm : List.Perm (l1.map getP) (l2.map getP) := h.map getP
  unfold merge_names
  cases h1 : l1.map getP with
  | nil =>
    rw [h1] at hm
    have h2 : l2.map getP = [] := hm.symm.eq_nil
    rw [h2]
  | cons f rest =>
    rw [h1] at hm
    cases h2 : l2.map getP with
    | nil =>
      rw [h2] at hm
      exact absurd hm.eq_nil (by simp)
    | cons g rest2 =>
      rw [h2] at hm
      rw [merge_eq_prod, merge_eq_prod, hm.prod_eq]

/-- C1 (witness for the amended theorem): concrete instance on the
two-element list `["A", "B"]` and its reverse. -/
theorem c1_witness :
    merge_names ctx0 getP0 2 0 ["A", "B"] =
      merge_names ctx0 getP0 2 0 ["B", "A"] :=
  c1_merge_perm_invariant ctx0 getP0 2 0 ["A", "B"] ["B", "A"]
    (List.Perm.swap "B" "A" [])

/-! ## StateSealer (security.py) -/

/-- Model universe for Python payload values handled by
`StateSealer._compute_payload_hash`: integers, strings, and flat
string-valued dictionaries (a representative sub-universe of the opaque
`Any` payload). -/
inductive PyVal where
  | vInt (n : Int)
  | vStr (s : String)
  | vDict (entries : List (String × String))
deriving DecidableEq

/-- JSON serialisation of a flat string dict as `json.dumps` renders it
(insertion order, `", "` and `": "` separators). -/
def json_dumps_pairs (l : List (String × String)) : String :=
  "\x7b" ++
    String.intercalate ", "
      (l.map (fun kv => "\"" ++ kv.1 ++ "\": \"" ++ kv.2 ++ "\"")) ++
  "\x7d"

def insert_pair (kv : String × String) :
    List (String × String) → List (String × String)
  | [] => [kv]
  | h :: t => if kv.1 ≤ h.1 then kv :: h :: t else h :: insert_pair kv t

/-- Key sort used for `json.dumps(..., sort_keys=True)`. -/
def sort_pairs : List (String × String) → List (String × String)
  | [] => []
  | h :: t => insert_pair h (sort_pairs t)

/-- Python `str` of a payload value (used by `_compute_payload_hash` for
non-dict payloads).  `str(1) = "1" = str("1")`. -/
def pyStr : PyVal → String
  | .vInt n => toString n
  | .vStr s => s
  | .vDict l =>
    "\x7b" ++
      String.intercalate ", "
        (l.map (fun kv => "\x27" ++ kv.1 ++ "\x27: \x27" ++ kv.2 ++ "\x27")) ++
    "\x7d"

/-- Model of `StateSealer._compute_payload_hash` (security.py): sorted-key JSON for
dict payloads, `str` otherwise, then SHA-256 hex digest. -/
def compute_payload_hash (ctx : CryptoContext) : PyVal → String
  | .vDict l => ctx.shaHex (json_dumps_pairs (sort_pairs l))
  | v => ctx.shaHex (pyStr v)

/-- Serialisation of the optional metrics map as both `seal` and `verify`
compute it: `json.dumps(m) if m else "{}"` — `None` and the empty dict both
serialise to the two-character string of braces. -/
def metrics_string : Option (List (String × String)) → String
  | none => "\x7b\x7d"
  | some [] => "\x7b\x7d"
  | some (kv :: rest) => json_dumps_pairs (kv :: rest)

/-- The anchor string fed to SHA-256 for the integrity seal:
`"{t}|{payload_hash}|{metrics}|{nonce}|{timestamp}|{ops}"`. -/
def anchor_raw (trace_t payload_hash metrics_str nonce timestamp ops : String) :
    String :=
  trace_t ++ "|" ++ payload_hash ++ "|" ++ metrics_str ++ "|" ++ nonce ++
    "|" ++ timestamp ++ "|" ++ ops

/-- Model of `HolographicMeta` (models.py). -/
structure HolographicMeta where
  trace_t : Nat
  depth : Nat
  segment_id : Nat
  path_log : List String
  total_op_count : Nat
deriving DecidableEq

/-- Model of `AgentState` (models.py); `nonce` and `timestamp` are arbitrary here
(the dataclass defaults draw them from `secrets`/`time`). -/
structure AgentState where
  task_id : String
  payload : PyVal
  meta : HolographicMeta
  nonce : String
  timestamp : Int
deriving DecidableEq

/-- Envelope header produced by `StateSealer.seal`. -/
structure Header where
  trace_t : String
  integrity_seal : String
  nonce : String
  timestamp : Int
  ops : Nat
deriving DecidableEq

structure Body where
  payload : PyVal
  metrics : Option (List (String × String))
deriving DecidableEq

structure Envelope where
  version : String
  header : Header
  body : Body
deriving DecidableEq

/-- Model of `StateSealer.seal` (security.py). -/
def seal_state (ctx : CryptoContext) (state : AgentState)
    (extra_metrics : Option (List (String × String))) : Envelope :=
  let payload_hash := compute_payload_hash ctx state.payload
  let current_t := state.meta.trace_t
  let metrics_str := metrics_string extra_metrics
  let a := anchor_raw (toString current_t) payload_hash metrics_str
      state.nonce (toString state.timestamp)
      (toString state.meta.total_op_count)
  let integrity_seal := ctx.shaHex a
  { version := "v2.2-timestamped"
    header := { trace_t := toString current_t
                integrity_seal := integrity_seal
                nonce := state.nonce
                timestamp := state.timestamp
                ops := state.meta.total_op_count }
    body := { payload := state.payload, metrics := extra_metrics } }

/-- Model of `StateSealer.verify` (security.py): recompute the anchor from header
and body and compare the digest with the stored seal. -/
def verify (ctx : CryptoContext) (env : Envelope) : Bool :=
  let recalc_payload_hash := compute_payload_hash ctx env.body.payload
  let metrics_str := metrics_string env.body.metrics
  let recalc_anchor := anchor_raw env.header.trace_t recalc_payload_hash
      metrics_str env.header.nonce (toString env.header.timestamp)
      (toString env.header.ops)
  ctx.shaHex recalc_anchor == env.header.integrity_seal

/-! ## TraceInspector (security.py) -/

/-- The message strings `TraceInspector.verify_path` can return, as an
inductive.  Constructor ↔ source string:
`timestampRejected` ↔ "Timestamp rejected: Drift ...s > 300s";
`unknownAgent a` ↔ "Unknown agent: {a}";
`dosProtection` ↔ "DoS Protection: Verification Complexity Threshold Exceeded";
`verificationPassed` ↔ "Verification Passed". -/
inductive VMsg where
  | timestampRejected
  | unknownAgent (name : String)
  | dosProtection
  | verificationPassed
deriving DecidableEq

/-- Outcome of the replay loop of `verify_path`: either an early `return`
out of the function, or the loop ran off the end of the witness list with
the final `(registry, simulated_t, simulated_depth, ops_counter)`. -/
inductive LoopOut where
  | earlyReturn (b : Bool) (m : VMsg)
  | done (reg : RegState) (t d ops : Nat)
deriving DecidableEq

/-- Model of `TraceInspector.MAX_CLOCK_DRIFT` (security.py): 300 seconds. -/
def MAX_CLOCK_DRIFT : Nat := 300

/-- The in-loop circuit-breaker threshold of `verify_path` (security.py):
`if ops_counter > 500`. -/
def VERIFY_OPS_BREAKER : Nat := 500

/-- Phase-1 check of `verify_path`: with an envelope header present,
reject when `|now - header.timestamp| > MAX_CLOCK_DRIFT`. -/
def timestamp_rejected (now : Int) (envelope_header : Option Header) : Bool :=
  match envelope_header with
  | some hd => decide ((now - hd.timestamp).natAbs > MAX_CLOCK_DRIFT)
  | none => false

/-- The path-replay loop of `verify_path` (security.py), threading the
registry state through `get_prime` (= `register_agent`): for each witness
`p = get_prime(a)`; `if not p` return `(False, "Unknown agent: ...")`;
two `fast_pow` calls advance `simulated_t` and `ops_counter`; then the
circuit breaker `if ops_counter > 500` fires.  A `RateLimited` exception
raised inside `get_prime` propagates as `.error`. -/
def vloop (ctx : CryptoContext) (hp : String → Nat) (now : Int) :
    RegState → List String → Nat → Nat → Nat → Except String LoopOut
  | reg, [], t, d, ops => .ok (.done reg t d ops)
  | reg, agent_name :: rest, t, d, ops =>
    match get_prime hp now reg agent_name with
    | .error e => .error e
    | .ok (p, reg2) =>
      if p = 0 then .ok (.earlyReturn false (.unknownAgent agent_name))
      else
        let path_term := fast_pow ctx t p
        let depth_hash := ctx.shaNat (toString d)
        let depth_term := fast_pow ctx ctx.G depth_hash
        let ops2 := ops + 1 + 1
        let simulated_t := path_term * depth_term % ctx.M
        if ops2 > VERIFY_OPS_BREAKER then
          .ok (.earlyReturn false .dosProtection)
        else
          vloop ctx hp now reg2 rest simulated_t (d + 1) ops2

/-- Model of `TraceInspector.verify_path` (security.py).  Phase 1: clock-drift
check (only when a header is supplied).  Phase 2: replay from
`simulated_t = 2`, `simulated_depth = 0`, `ops_counter = 0`.  Phase 3 in
the source binds `claimed_ops = int(header["ops"])` and then does nothing
(`pass`), so the header's ops field is not consulted; finally the function
returns `(str(simulated_t) == str(target_t), "Verification Passed")`. -/
def verify_path (ctx : CryptoContext) (hp : String → Nat) (now : Int)
    (reg : RegState) (target_t : Nat) (claimed_witness_list : List String)
    (envelope_header : Option Header) : Except String (Bool × VMsg) :=
  if timestamp_rejected now envelope_header then
    .ok (false, .timestampRejected)
  else
    match vloop ctx hp now reg claimed_witness_list 2 0 0 with
    | .error e => .error e
    | .ok (.earlyReturn b m) => .ok (b, m)
    | .ok (.done _ t _ _) =>
      .ok (toString t == toString target_t, .verificationPassed)

/-! ## C6: clock-drift rejection -/

/-- C6: given an envelope header, `verify_path` rejects with the
timestamp-drift message whenever the verifier clock differs from
`header.timestamp` by more than `MAX_CLOCK_DRIFT` = 300 seconds. -/
theorem c6_timestamp_drift (ctx : CryptoContext) (hp : String → Nat)
    (now : Int) (reg : RegState) (target_t : Nat) (ws : List String)
    (hd : Header) (h : (now - hd.timestamp).natAbs > MAX_CLOCK_DRIFT) :
    verify_path ctx hp now reg target_t ws (some hd) =
      .ok (false, .timestampRejected) := by
  simp [verify_path, timestamp_rejected, h]

/-- A concrete header sealed at time 0. -/
def hdr_t0 : Header :=
  { trace_t := "2", integrity_seal := "s", nonce := "n", timestamp := 0,
    ops := 0 }

/-- C6 (witness): verification attempted 400 seconds after sealing
(seal at t = 0, verify at t = 400) is rejected. -/
theorem c6_witness :
    ((400 : Int) - hdr_t0.timestamp).natAbs > MAX_CLOCK_DRIFT ∧
    verify_path ctx0 hp0 400 empty_registry 0 ["A"] (some hdr_t0) =
      .ok (false, .timestampRejected) :=
  ⟨by decide,
   c6_timestamp_drift ctx0 hp0 400 empty_registry 0 ["A"] hdr_t0 (by decide)⟩

/-! ## C2: the ops-conservation audit does not exist in the code -/

/-- Header whose `ops` field (999) disagrees with the cost of replaying
the one-element witness list (2 modular exponentiations). -/
def hdr_ops999 : Header :=
  { trace_t := "8", integrity_seal := "", nonce := "", timestamp := 0,
    ops := 999 }

/-- C2 (counterexample): replaying `["a"]` costs exactly 2 modular
exponentiations, the header claims `ops = 999`, and `verify_path`
nevertheless returns `(True, "Verification Passed")`: the recomputed ops
counter is never compared against `header.ops` (the source binds
`claimed_ops` and then executes `pass`). -/
theorem c2_counterexample :
    hdr_ops999.ops = 999 ∧
    vloop ctx0 hp0 0 empty_registry ["a"] 2 0 0 =
      .ok (.done ⟨[("a", 3)], [("a", 0)]⟩ 8 1 2) ∧
    verify_path ctx0 hp0 0 empty_registry 8 ["a"] (some hdr_ops999) =
      .ok (true, .verificationPassed) :=
  ⟨rfl, rfl, rfl⟩

/-- C2 (amended): `verify_path` recomputes an ops counter during replay
but never compares it with the envelope header's `ops` field; the `ops`
field has no effect whatsoever on the outcome, and no ops-integrity
rejection exists. -/
theorem c2_ops_field_irrelevant (ctx : CryptoContext) (hp : String → Nat)
    (now : Int) (reg : RegState) (target_t : Nat) (ws : List String)
    (hd : Header) (ops1 ops2 : Nat) :
    verify_path ctx hp now reg target_t ws (some { hd with ops := ops1 }) =
      verify_path ctx hp now reg target_t ws (some { hd with ops := ops2 }) :=
  rfl

/-! ## C4: failed snapshot fold leaves a partially-updated accumulator -/

/-- An accumulator at the depth cap, one committed update away from a
fold, still on the genesis snapshot hash. -/
def snap_acc0 : SnapAcc :=
  { current_T := 2, depth := 10, op_count := 20, segment_id := 0
    last_snapshot_hash :=
      "0000000000000000000000000000000000000000000000000000000000000000"
    snapshot_store := [] }

/-- A folded backend result whose snapshot block does not chain to the
accumulator's `last_snapshot_hash`. -/
def backend_res0 : BackendResult :=
  { new_t := 50, new_depth := 0, new_op_count := 22, is_folded := true
    snapshot_data :=
      { segment_id := 0, final_t := "2", depth_at_snapshot := 10
        snapshot_hash := "abc", prev_hash := "TAMPERED", timestamp := 0 } }

/-- C4 (code bug): on a snapshot chain-integrity mismatch the update
raises, but `current_T`, `depth` and the op counter have already been
committed while `last_snapshot_hash`, `segment_id` and the snapshot store
have not — the observable state at the exception differs from the last
committed state, so the update is not atomic. -/
theorem c4_partial_commit_eval :
    update_state_with_check snap_acc0 backend_res0 7 =
      .error ("Snapshot Chain Integrity Violation!",
        { snap_acc0 with current_T := 50, depth := 0, op_count := 22 }) ∧
    ({ snap_acc0 with current_T := 50, depth := 0, op_count := 22 }
        : SnapAcc).current_T ≠ snap_acc0.current_T ∧
    ({ snap_acc0 with current_T := 50, depth := 0, op_count := 22 }
        : SnapAcc).last_snapshot_hash = snap_acc0.last_snapshot_hash :=
  ⟨rfl, by decide, rfl⟩

/-! ## C7: the verification circuit breaker fires at 500, not 5000 -/

/-- The replay loop never trips the DoS breaker when the total cost
`ops + 2 * |ws|` stays within the in-code threshold of 500. -/
theorem vloop_no_dos (ctx : CryptoContext) (hp : String → Nat) (now : Int) :
    ∀ (ws : List String) (reg : RegState) (t d ops : Nat),
      ops + 2 * ws.length ≤ VERIFY_OPS_BREAKER →
      ∀ b, vloop ctx hp now reg ws t d ops ≠
        .ok (.earlyReturn b .dosProtection)
  | [], reg, t, d, ops, _, b => by simp [vloop]
  | a :: rest, reg, t, d, ops, h, b => by
    rw [vloop]
    cases hreg : get_prime hp now reg a with
    | error e => simp
    | ok pr =>
      obtain ⟨p, reg2⟩ := pr
      by_cases hz : p = 0
      · simp [hz]
      · have hle : ¬ (ops + 1 + 1 > VERIFY_OPS_BREAKER) := by
          simp [List.length_cons] at h
          omega
        simp only [hz, if_false, hle]
        have hrec : (ops + 1 + 1) + 2 * rest.length ≤ VERIFY_OPS_BREAKER := by
          simp [List.length_cons] at h
          omega
        exact vloop_no_dos ctx hp now rest reg2 _ (d + 1) (ops + 1 + 1) hrec b

/-- The replay loop never runs to completion when the total cost
`ops + 2 * |ws|` exceeds the in-code threshold of 500: it aborts at the
step where the counter first crosses the breaker (or earlier for another
rejection). -/
theorem vloop_no_done (ctx : CryptoContext) (hp : String → Nat) (now : Int) :
    ∀ (ws : List String) (reg : RegState) (t d ops : Nat),
      ops ≤ VERIFY_OPS_BREAKER →
      VERIFY_OPS_BREAKER < ops + 2 * ws.length →
      ∀ r t2 d2 o2, vloop ctx hp now reg ws t d ops ≠
        .ok (.done r t2 d2 o2)
  | [], reg, t, d, ops, h1, h2, r, t2, d2, o2 => by
    simp at h2
    omega
  | a :: rest, reg, t, d, ops, h1, h2, r, t2, d2, o2 => by
    rw [vloop]
    cases hreg : get_prime hp now reg a with
    | error e => simp
    | ok pr =>
      obtain ⟨p, reg2⟩ := pr
      by_cases hz : p = 0
      · simp [hz]
      · simp only [hz, if_false]
        by_cases hbr : ops + 1 + 1 > VERIFY_OPS_BREAKER
        · simp [hbr]
        · simp only [hbr, if_false]
          have hb1 : ops + 1 + 1 ≤ VERIFY_OPS_BREAKER := by omega
          have hb2 : VERIFY_OPS_BREAKER < (ops + 1 + 1) + 2 * rest.length := by
            simp [List.length_cons] at h2
            omega
          exact vloop_no_done ctx hp now rest reg2 _ (d + 1) (ops + 1 + 1)
            hb1 hb2 r t2 d2 o2

/-- C7 (amended): the circuit-breaker threshold of `verify_path` is 500
modular exponentiations, not 5000.  (i) A witness list whose replay costs
at most 500 exponentiations (2 per witness) never produces the
DoS-protection rejection; (ii) a replay whose cost would exceed 500 never
completes — the loop aborts at or before the step where the counter
crosses the threshold. -/
theorem c7_budget_500 :
    (∀ (ctx : CryptoContext) (hp : String → Nat) (now : Int)
       (reg : RegState) (target_t : Nat) (ws : List String)
       (hdr : Option Header),
       2 * ws.length ≤ VERIFY_OPS_BREAKER →
       verify_path ctx hp now reg target_t ws hdr ≠
         .ok (false, .dosProtection)) ∧
    (∀ (ctx : CryptoContext) (hp : String → Nat) (now : Int)
       (reg : RegState) (ws : List String) (t d ops : Nat),
       ops ≤ VERIFY_OPS_BREAKER →
       VERIFY_OPS_BREAKER < ops + 2 * ws.length →
       ∀ r t2 d2 o2, vloop ctx hp now reg ws t d ops ≠
         .ok (.done r t2 d2 o2)) := by
  constructor
  · intro ctx hp now reg target_t ws hdr h
    unfold verify_path
    by_cases hts : timestamp_rejected now hdr
    · simp [hts]
    · simp only [hts, if_false]
      cases hv : vloop ctx hp now reg ws 2 0 0 with
      | error e => simp
      | ok lo =>
        cases lo with
        | earlyReturn b m =>
          intro hcontra
          have hbm : b = false ∧ m = VMsg.dosProtection := by
            simpa using hcontra
          rcases hbm with ⟨hb, hm⟩
          subst hb
          subst hm
          exact vloop_no_dos ctx hp now ws reg 2 0 0 (by omega) false hv
        | done r t2 d2 o2 => simp
  · exact fun ctx hp now reg ws t d ops h1 h2 =>
      vloop_no_done ctx hp now ws reg t d ops h1 h2

set_option maxRecDepth 100000 in
/-- C7 (counterexample): a witness list of 251 agents costs
`2 × 251 = 502 ≤ 5000` modular exponentiations, yet `verify_path` rejects
it with the DoS-protection breaker instead of replaying it to
completion — the in-code threshold is 500, not the claimed 5000. -/
theorem c7_counterexample :
    2 * (List.replicate 251 "a").length ≤ 5000 ∧
    verify_path ctx0 hp0 0 empty_registry 0 (List.replicate 251 "a") none =
      .ok (false, .dosProtection) :=
  ⟨by decide, by rfl⟩

set_option maxRecDepth 100000 in
/-- C7 (witness for the amended theorem): part (i) at a one-element
witness list, part (ii) at the 251-element list that crosses the
threshold. -/
theorem c7_witness :
    (verify_path ctx0 hp0 0 empty_registry 8 ["a"] none ≠
      .ok (false, .dosProtection)) ∧
    (vloop ctx0 hp0 0 empty_registry (List.replicate 251 "a") 2 0 0 ≠
      .ok (.done empty_registry 2 0 0)) :=
  ⟨c7_budget_500.1 ctx0 hp0 0 empty_registry 8 ["a"] none (by decide),
   c7_budget_500.2 ctx0 hp0 0 empty_registry (List.replicate 251 "a") 2 0 0
     (by decide) (by decide) empty_registry 2 0 0⟩

/-! ## C8: the rate limiter admits 101 (not 100) new primes per window -/

/-- One `register_agent` call succeeds and appends to the request log when
the (unexpired) log has at most 100 entries and does not yet contain the
id: the check `len(request_log) > 100` runs before the insertion. -/
theorem register_agent_step (hp : String → Nat) (now : Int)
    (cache : List (String × Nat)) (log : List (String × Int)) (a : String)
    (htime : ∀ kv ∈ log, kv.2 = now)
    (hlen : log.length ≤ MAX_REQUESTS_PER_WINDOW)
    (hkey : ∀ kv ∈ log, kv.1 ≠ a) :
    ∃ p cache2, register_agent hp now ⟨cache, log⟩ a =
      .ok (p, ⟨cache2, log ++ [(a, now)]⟩) := by
  have hfilter :
      log.filter (fun kv => now - kv.2 < RATE_LIMIT_WINDOW) = log := by
    apply List.filter_eq_self.mpr
    intro kv hkv
    have h2 := htime kv hkv
    simp [h2, RATE_LIMIT_WINDOW]
  have hany : log.any (fun kv => kv.1 = a) = false := by
    rw [List.any_eq_false]
    intro kv hkv
    simpa using hkey kv hkv
  simp only [register_agent, hfilter]
  rw [if_neg (by omega)]
  simp only [dict_insert, hany]
  cases hl : cache.lookup a with
  | some p => exact ⟨p, cache, by simp [hl]⟩
  | none => exact ⟨hp a, cache ++ [(a, hp a)], by simp [hl]⟩

/-- Lemma: `register_agent` raises the rate-limit error when the unexpired log
already exceeds 100 entries. -/
theorem register_agent_raises (hp : String → Nat) (now : Int)
    (cache : List (String × Nat)) (log : List (String × Int)) (a : String)
    (htime : ∀ kv ∈ log, kv.2 = now)
    (hlen : log.length > MAX_REQUESTS_PER_WINDOW) :
    register_agent hp now ⟨cache, log⟩ a =
      .error "Rate Limit Exceeded: Too many prime generation requests" := by
  have hfilter :
      log.filter (fun kv => now - kv.2 < RATE_LIMIT_WINDOW) = log := by
    apply List.filter_eq_self.mpr
    intro kv hkv
    have h2 := htime kv hkv
    simp [h2, RATE_LIMIT_WINDOW]
  simp only [register_agent, hfilter]
  rw [if_pos hlen]

/-- Submitting a run of distinct fresh ids in a single instant overflows
the window as soon as `|log| + |ids| ≥ 102`: some call in the run raises
the rate-limit error. -/
theorem register_all_overflows (hp : String → Nat) (now : Int) :
    ∀ (ids : List String) (cache : List (String × Nat))
      (log : List (String × Int)),
      ids.Nodup →
      (∀ kv ∈ log, kv.2 = now) →
      (∀ id ∈ ids, ∀ kv ∈ log, kv.1 ≠ id) →
      102 ≤ log.length + ids.length →
      ids ≠ [] →
      register_all hp now ⟨cache, log⟩ ids =
        .error "Rate Limit Exceeded: Too many prime generation requests"
  | [], _, _, _, _, _, _, hne => absurd rfl hne
  | a :: rest, cache, log, hnd, htime, hkey, hsum, _ => by
    rw [register_all]
    by_cases hlen : log.length > MAX_REQUESTS_PER_WINDOW
    · rw [register_agent_raises hp now cache log a htime hlen]
    · have hlen2 : log.length ≤ MAX_REQUESTS_PER_WINDOW := by omega
      obtain ⟨p, cache2, hreg⟩ :=
        register_agent_step hp now cache log a htime hlen2
          (fun kv hkv => hkey a (by simp) kv hkv)
      rw [hreg]
      have hnd2 := List.nodup_cons.mp hnd
      have hrest : rest ≠ [] := by
        intro h
        subst h
        simp only [List.length_cons, List.length_nil] at hsum
        simp only [MAX_REQUESTS_PER_WINDOW] at hlen2
        omega
      apply register_all_overflows hp now rest cache2 (log ++ [(a, now)])
        hnd2.2
      · intro kv hkv
        rcases List.mem_append.mp hkv with h | h
        · exact htime kv h
        · simp at h
          simp [h]
      · intro id hid kv hkv
        rcases List.mem_append.mp hkv with h | h
        · exact hkey id (by simp [hid]) kv h
        · simp at h
          subst h
          intro hcontra
          simp only at hcontra
          exact hnd2.1 (hcontra ▸ hid)
      · simp only [List.length_append, List.length_cons, List.length_nil] at hsum ⊢
        omega
      · exact hrest

/-- C8 (amended): 102 (not 101) distinct new agent ids submitted within
one sliding 1-second window make at least one `register_agent` call raise
the rate-limit error; equivalently, at most 101 (not 100) distinct new
ids can be registered in one window without a failure — the guard checks
`len(request_log) > 100` before recording the current request, so the
101st id still passes. -/
theorem c8_rate_limit_102 :
    ∀ (hp : String → Nat) (now : Int) (ids : List String), ids.Nodup →
      (102 ≤ ids.length →
        register_all hp now empty_registry ids =
          .error "Rate Limit Exceeded: Too many prime generation requests") ∧
      (register_all hp now empty_registry ids ≠
          .error "Rate Limit Exceeded: Too many prime generation requests" →
        ids.length ≤ 101) := by
  intro hp now ids hnd
  have hmain : 102 ≤ ids.length →
      register_all hp now empty_registry ids =
        .error "Rate Limit Exceeded: Too many prime generation requests" := by
    intro hlen
    have hne : ids ≠ [] := by
      intro h
      subst h
      simp at hlen
    exact register_all_overflows hp now ids [] [] hnd (by simp) (by simp)
      (by simpa using hlen) hne
  refine ⟨hmain, ?_⟩
  intro hok
  by_contra hgt
  exact hok (hmain (by omega))

/-- 101 pairwise-distinct fresh agent ids. -/
def ids101 : List String := (List.range 101).map (fun i => "a" ++ toString i)

/-- 102 pairwise-distinct fresh agent ids. -/
def ids102 : List String := (List.range 102).map (fun i => "a" ++ toString i)

set_option maxRecDepth 100000 in
/-- C8 (counterexample): 101 distinct new agent ids submitted within one
1-second window (all at `now = 0`) ALL succeed — no call raises
`RateLimited` — and 101 new primes are derived in the window, refuting
both the "≥ 101 ids raise" and the "≤ 100 primes per window" halves of
the claim. -/
theorem c8_counterexample :
    ids101.length = 101 ∧ ids101.Nodup ∧
    (register_all hp0 0 empty_registry ids101).toOption.map
        (fun r => r.cache.length) = some 101 :=
  ⟨by decide, by decide, by decide⟩

set_option maxRecDepth 100000 in
/-- C8 (witness for the amended theorem): 102 distinct ids at one instant
raise the rate-limit error. -/
theorem c8_witness :
    register_all hp0 0 empty_registry ids102 =
      .error "Rate Limit Exceeded: Too many prime generation requests" :=
  (c8_rate_limit_102 hp0 0 ids102 (by decide)).1 (by decide)

/-! ## C3: unknown ids are lazily registered, never rejected -/

theorem lookup_mem {p : Nat} :
    ∀ {l : List (String × Nat)} {a : String},
      l.lookup a = some p → (a, p) ∈ l
  | [], a, h => by simp [List.lookup] at h
  | (k, v) :: t, a, h => by
    rw [List.lookup] at h
    by_cases hk : a == k
    · rw [hk] at h
      have hak : a = k := eq_of_beq hk
      have hv : v = p := by simpa using h
      simp [hak, hv]
    · have hkf : (a == k) = false := by simpa using hk
      rw [hkf] at h
      have hmem := lookup_mem (l := t) (a := a) (by simpa using h)
      exact List.mem_cons_of_mem _ hmem

/-- A successful `register_agent` never returns the prime 0 when the
derivation function never does and the cache holds no 0, and it keeps
that cache invariant. -/
theorem register_agent_prime_ne_zero (hp : String → Nat) (now : Int)
    (reg : RegState) (a : String) (p : Nat) (reg2 : RegState)
    (hhp : ∀ s, hp s ≠ 0) (hc : ∀ kv ∈ reg.cache, kv.2 ≠ 0)
    (h : register_agent hp now reg a = .ok (p, reg2)) :
    p ≠ 0 ∧ ∀ kv ∈ reg2.cache, kv.2 ≠ 0 := by
  rw [register_agent] at h
  by_cases hlim : (reg.request_log.filter
      (fun kv => now - kv.2 < RATE_LIMIT_WINDOW)).length >
        MAX_REQUESTS_PER_WINDOW
  · rw [if_pos hlim] at h
    exact absurd h (by simp)
  · rw [if_neg hlim] at h
    cases hl : reg.cache.lookup a with
    | some q =>
      rw [hl] at h
      have hpq : q = p ∧ reg2.cache = reg.cache := by
        have := h
        simp only [Except.ok.injEq, Prod.mk.injEq] at this
        refine ⟨this.1, ?_⟩
        rw [← this.2]
      refine ⟨hpq.1 ▸ hc (a, q) (lookup_mem hl), ?_⟩
      rw [hpq.2]
      exact hc
    | none =>
      rw [hl] at h
      have hpq : hp a = p ∧ reg2.cache = reg.cache ++ [(a, hp a)] := by
        simp only [Except.ok.injEq, Prod.mk.injEq] at h
        refine ⟨h.1, ?_⟩
        rw [← h.2]
      refine ⟨hpq.1 ▸ hhp a, ?_⟩
      rw [hpq.2]
      intro kv hkv
      rcases List.mem_append.mp hkv with hm | hm
      · exact hc kv hm
      · simp at hm
        simp [hm]
        exact hhp a

/-- The replay loop of `verify_path` never produces the unknown-agent
rejection when the derivation function and cache never yield 0 — the
guard `if not p` is unreachable for genuinely derived primes. -/
theorem vloop_no_unknown (ctx : CryptoContext) (hp : String → Nat)
    (now : Int) (hhp : ∀ s, hp s ≠ 0) :
    ∀ (ws : List String) (reg : RegState),
      (∀ kv ∈ reg.cache, kv.2 ≠ 0) →
      ∀ (t d ops : Nat) (b : Bool) (r : String),
        vloop ctx hp now reg ws t d ops ≠
          .ok (.earlyReturn b (.unknownAgent r))
  | [], reg, hc, t, d, ops, b, r => by simp [vloop]
  | a :: rest, reg, hc, t, d, ops, b, r => by
    rw [vloop]
    cases hreg : get_prime hp now reg a with
    | error e => simp
    | ok pr =>
      obtain ⟨p, reg2⟩ := pr
      have hinv := register_agent_prime_ne_zero hp now reg a p reg2 hhp hc hreg
      dsimp only
      rw [if_neg hinv.1]
      by_cases hbr : ops + 1 + 1 > VERIFY_OPS_BREAKER
      · simp [hbr]
      · simp only [hbr, if_false]
        exact vloop_no_unknown ctx hp now hhp rest reg2 hinv.2 _ (d + 1)
          (ops + 1 + 1) b r

/-- C3 (amended): `verify_path` never rejects a witness with the
unknown-agent message when primes are genuinely derived (`hash_to_prime`
and the cache never yield 0): instead of failing on an id absent from the
registry, `get_prime` (an alias of `register_agent`) lazily derives a
fresh prime for it and caches it, and the replay continues. -/
theorem c3_lazy_derivation :
    (∀ (ctx : CryptoContext) (hp : String → Nat) (now : Int)
       (reg : RegState) (target_t : Nat) (ws : List String)
       (hdr : Option Header),
       (∀ s : String, hp s ≠ 0) → (∀ kv ∈ reg.cache, kv.2 ≠ 0) →
       ∀ (b : Bool) (r : String),
         verify_path ctx hp now reg target_t ws hdr ≠
           .ok (b, .unknownAgent r)) ∧
    (∀ (hp : String → Nat) (now : Int) (reg : RegState) (a : String),
       reg.cache.lookup a = none →
       (reg.request_log.filter
           (fun kv => now - kv.2 < RATE_LIMIT_WINDOW)).length ≤
         MAX_REQUESTS_PER_WINDOW →
       register_agent hp now reg a =
         .ok (hp a, ⟨reg.cache ++ [(a, hp a)],
           dict_insert (reg.request_log.filter
             (fun kv => now - kv.2 < RATE_LIMIT_WINDOW)) a now⟩)) := by
  constructor
  · intro ctx hp now reg target_t ws hdr hhp hc b r
    unfold verify_path
    by_cases hts : timestamp_rejected now hdr
    · simp [hts]
    · simp only [hts, if_false]
      cases hv : vloop ctx hp now reg ws 2 0 0 with
      | error e => simp
      | ok lo =>
        cases lo with
        | earlyReturn b2 m =>
          intro hcontra
          have hbm : b2 = b ∧ m = VMsg.unknownAgent r := by
            simpa using hcontra
          rcases hbm with ⟨hb, hm⟩
          subst hm
          exact vloop_no_unknown ctx hp now hhp ws reg hc 2 0 0 b2 r hv
        | done r2 t2 d2 o2 => simp
  · intro hp now reg a hmiss hlen
    rw [register_agent]
    rw [if_neg (by omega)]
    rw [hmiss]

/-- C3 (witness for the amended theorem): concrete empty registry and the
fresh id "ghost". -/
theorem c3_witness :
    (verify_path ctx0 hp0 0 empty_registry 8 ["ghost"] none ≠
      .ok (false, .unknownAgent "ghost")) ∧
    register_agent hp0 0 empty_registry "ghost" =
      .ok (hp0 "ghost", ⟨empty_registry.cache ++ [("ghost", hp0 "ghost")],
        dict_insert (empty_registry.request_log.filter
          (fun kv => (0 : Int) - kv.2 < RATE_LIMIT_WINDOW)) "ghost" 0⟩) :=
  ⟨c3_lazy_derivation.1 ctx0 hp0 0 empty_registry 8 ["ghost"] none
     (fun s => by simp [hp0]) (by simp [empty_registry]) false "ghost",
   c3_lazy_derivation.2 hp0 0 empty_registry "ghost" rfl (by decide)⟩

/-- C3 (counterexample): the witness list `["ghost"]` names an id absent
from the (empty) registry, yet `verify_path` does not fail with an
unknown-agent rejection: it derives a fresh prime for "ghost" during
verification (the final registry caches `("ghost", 3)`) and reports
successful verification of the replayed trace. -/
theorem c3_counterexample :
    empty_registry.cache.lookup "ghost" = none ∧
    vloop ctx0 hp0 0 empty_registry ["ghost"] 2 0 0 =
      .ok (.done ⟨[("ghost", 3)], [("ghost", 0)]⟩ 8 1 2) ∧
    verify_path ctx0 hp0 0 empty_registry 8 ["ghost"] none =
      .ok (true, .verificationPassed) :=
  ⟨rfl, rfl, rfl⟩

/-! ## C9: envelope round-trip and which mutations falsify verify -/

/-- The anchor string determines the nonce component: equal anchors with
equal surrounding fields force equal nonces. -/
theorem anchor_nonce_inj {a b c n1 n2 e f : String}
    (h : anchor_raw a b c n1 e f = anchor_raw a b c n2 e f) : n1 = n2 := by
  apply String.ext
  have hd := congrArg String.data h
  simp only [anchor_raw, String.data_append, List.append_assoc] at hd
  have h1 := List.append_cancel_left hd
  have h2 := List.append_cancel_left h1
  have h3 := List.append_cancel_left h2
  have h4 := List.append_cancel_left h3
  have h5 := List.append_cancel_left h4
  have h6 := List.append_cancel_left h5
  exact List.append_cancel_right h6

/-- C9 (amended): (i) `verify(seal(state, m)) = true` for every state and
metrics map; (ii) a mutation of the body payload that leaves its
canonical serialisation (payload hash) unchanged — such as replacing the
integer `1` by the string `"1"` — leaves `verify` unchanged, so not every
field mutation falsifies it; (iii) a mutation that does change the anchor,
e.g. of the nonce, falsifies `verify` whenever the hash is injective. -/
theorem c9_round_trip_and_anchor :
    (∀ (ctx : CryptoContext) (state : AgentState)
       (m : Option (List (String × String))),
       verify ctx (seal_state ctx state m) = true) ∧
    (∀ (ctx : CryptoContext) (env : Envelope) (p2 : PyVal),
       compute_payload_hash ctx p2 =
           compute_payload_hash ctx env.body.payload →
       verify ctx { env with body := { env.body with payload := p2 } } =
         verify ctx env) ∧
    (∀ (ctx : CryptoContext) (state : AgentState)
       (m : Option (List (String × String))) (n2 : String),
       Function.Injective ctx.shaHex → n2 ≠ state.nonce →
       verify ctx { seal_state ctx state m with
           header := { (seal_state ctx state m).header with nonce := n2 } } =
         false) := by
  refine ⟨?_, ?_, ?_⟩
  · intro ctx state m
    simp [verify, seal_state]
  · intro ctx env p2 h
    simp [verify, h]
  · intro ctx state m n2 hinj hne
    simp only [verify, seal_state]
    rw [beq_eq_false_iff_ne]
    intro hcontra
    exact hne (anchor_nonce_inj (hinj hcontra))

/-- A concrete agent state with the integer payload `1`. -/
def state_int1 : AgentState :=
  { task_id := "t", payload := .vInt 1
    meta := { trace_t := 2, depth := 0, segment_id := 0, path_log := []
              total_op_count := 0 }
    nonce := "n", timestamp := 0 }

def env_int1 : Envelope := seal_state ctx0 state_int1 none

/-- Mutation of `env_int1`: its body payload mutated from the integer `1` to the
string `"1"`. -/
def env_str1 : Envelope :=
  { env_int1 with body := { env_int1.body with payload := .vStr "1" } }

/-- C9 (counterexample): mutating the sealed envelope's body payload from
the integer `1` to the string `"1"` is a genuine mutation
(`body.payload` differs) yet `verify` still returns `true`, because
`str(1) = "1" = str("1")` gives the same canonical payload
serialisation — so mutating a body field does not always falsify
`verify`. -/
theorem c9_counterexample :
    env_str1.body.payload ≠ env_int1.body.payload ∧
    verify ctx0 env_str1 = true :=
  ⟨by decide, by rfl⟩

/-- C9 (witness for the amended theorem): round trip, the
serialisation-preserving payload mutation, and the nonce falsification
on concrete data. -/
theorem c9_witness :
    verify ctx0 (seal_state ctx0 state_int1 none) = true ∧
    verify ctx0 { env_int1 with
        body := { env_int1.body with payload := PyVal.vStr "1" } } =
      verify ctx0 env_int1 ∧
    verify ctx0 { seal_state ctx0 state_int1 none with
        header := { (seal_state ctx0 state_int1 none).header with
                      nonce := "m" } } = false :=
  ⟨c9_round_trip_and_anchor.1 ctx0 state_int1 none,
   c9_round_trip_and_anchor.2.1 ctx0 env_int1 (PyVal.vStr "1") (by rfl),
   c9_round_trip_and_anchor.2.2 ctx0 state_int1 none "m"
     (fun _ _ hxy => hxy) (by decide)⟩
